import Mathlib

/-!
Shallow embedding of src/Deforestation/005_ExportModisMoranhao.js, a Google
Earth Engine (GEE) script that computes yearly land-cover statistics for
Maranhão from the MODIS MCD12Q1 collection and submits per-year export jobs.

Modelling choices:
* A raster frame (`EEImage`) carries its acquisition date and the list of its
  pixels as sampled at the script's working scale (500 m); each pixel has grid
  coordinates and an integer class code.  An image collection is the list of
  its frames in ascending acquisition order (the backend contract).
* GEE returns a null element from `first()` on an empty collection and the
  failure then surfaces when the computation is evaluated; fallible steps are
  embedded as `Option`.
* `reduceRegion` aggregates the pixel codes that fall inside the given
  geometry and fails when the pixel count exceeds the `maxPixels` ceiling.
  The `scale` argument is carried through from the API signature; the
  resampling it denotes is already baked into the pixel grid.
* `ee.ImageCollection.filterDate(start, end)` keeps frames whose timestamp is
  in the half-open interval [start, end): per the GEE API reference the start
  is inclusive and the end date is exclusive.
-/

/-- A calendar date as built by ee.Date.fromYMD. -/
structure Date where
  year : Nat
  month : Nat
  day : Nat
deriving DecidableEq, Repr

/-- Chronological order on dates (year, then month, then day), as a Boolean. -/
def Date.le (a b : Date) : Bool :=
  Nat.blt a.year b.year ||
    (a.year == b.year &&
      (Nat.blt a.month b.month || (a.month == b.month && Nat.ble a.day b.day)))

/-- Strict chronological order on dates, as a Boolean. -/
def Date.lt (a b : Date) : Bool :=
  Nat.blt a.year b.year ||
    (a.year == b.year &&
      (Nat.blt a.month b.month || (a.month == b.month && Nat.blt a.day b.day)))

/-- ee.Date.fromYMD. -/
def Date.fromYMD (y m d : Nat) : Date := ⟨y, m, d⟩

/-- ee.Date.advance(n, 'year'). -/
def Date.advanceYears (d : Date) (n : Nat) : Date := { d with year := d.year + n }

/-- One raster cell: grid coordinates and the integer class code stored there. -/
structure Pixel where
  x : Int
  y : Int
  code : Nat
deriving DecidableEq, Repr

/-- One categorical raster frame of the LC_Type1 band: acquisition timestamp
plus its pixel grid at the working scale. -/
structure EEImage where
  timestamp : Date
  pixels : List Pixel
deriving DecidableEq, Repr

/-- An image collection: frames in ascending acquisition order. -/
abbrev ImageCollection := List EEImage

/-- The region of interest, discretized by the backend: the grid cells whose
centers fall inside the ROI polygon at the working scale.  The script's
`maranhao` rectangle is one such region. -/
abbrev Region := List (Int × Int)

/-- Pointwise transformation of a frame's class codes (geometry unchanged). -/
def EEImage.mapCode (img : EEImage) (f : Nat → Nat) : EEImage :=
  { img with pixels := img.pixels.map fun p => ⟨p.x, p.y, f p.code⟩ }

/-- image.gte(k): Boolean image, 1 where code ≥ k, else 0. -/
def EEImage.gte (img : EEImage) (k : Nat) : EEImage :=
  img.mapCode fun c => if k ≤ c then 1 else 0

/-- image.lte(k): Boolean image, 1 where code ≤ k, else 0. -/
def EEImage.lte (img : EEImage) (k : Nat) : EEImage :=
  img.mapCode fun c => if c ≤ k then 1 else 0

/-- image.eq(k): Boolean image, 1 where code = k, else 0. -/
def EEImage.eq (img : EEImage) (k : Nat) : EEImage :=
  img.mapCode fun c => if c = k then 1 else 0

/-- a.and(b): pixelwise conjunction of two aligned Boolean images. -/
def EEImage.and (a b : EEImage) : EEImage :=
  { timestamp := a.timestamp
    pixels := List.zipWith
      (fun p q => ⟨p.x, p.y, if p.code ≠ 0 ∧ q.code ≠ 0 then 1 else 0⟩)
      a.pixels b.pixels }

/-- a.or(b): pixelwise disjunction of two aligned Boolean images. -/
def EEImage.or (a b : EEImage) : EEImage :=
  { timestamp := a.timestamp
    pixels := List.zipWith
      (fun p q => ⟨p.x, p.y, if p.code ≠ 0 ∨ q.code ≠ 0 then 1 else 0⟩)
      a.pixels b.pixels }

/-- image.clip(roi): restrict the frame to the cells inside the region. -/
def EEImage.clip (img : EEImage) (roi : Region) : EEImage :=
  { img with pixels := img.pixels.filter fun p => roi.contains (p.x, p.y) }

/-- Class codes of the frame's cells that fall inside the region: the multiset
a reduceRegion call aggregates over. -/
def regionCodes (img : EEImage) (roi : Region) : List Nat :=
  (img.pixels.filter fun p => roi.contains (p.x, p.y)).map Pixel.code

/-- reduceRegion with ee.Reducer.sum(): total of the codes inside the region,
failing when the pixel count exceeds the maxPixels ceiling. -/
def reduceRegionSum (img : EEImage) (roi : Region) (scale maxPixels : Nat) :
    Option Nat :=
  let cs := regionCodes img roi
  if cs.length ≤ maxPixels then some cs.sum else none

/-- reduceRegion with ee.Reducer.frequencyHistogram(): per-class pixel counts
inside the region, failing when the pixel count exceeds maxPixels. -/
def reduceRegionHistogram (img : EEImage) (roi : Region) (scale maxPixels : Nat) :
    Option (List (Nat × Nat)) :=
  let cs := regionCodes img roi
  if cs.length ≤ maxPixels then some (cs.dedup.map fun c => (c, cs.count c))
  else none

/-- collection.filter(ee.Filter.calendarRange(y, y, 'year')): frames acquired
in calendar year y. -/
def calendarRangeYear (col : ImageCollection) (y : Nat) : ImageCollection :=
  col.filter fun img => img.timestamp.year == y

/-- collection.filterDate(start, end): frames with start ≤ timestamp < end
(GEE's filterDate is inclusive of the start and exclusive of the end). -/
def filterDate (col : ImageCollection) (startDate endDate : Date) :
    ImageCollection :=
  col.filter fun img =>
    Date.le startDate img.timestamp && Date.lt img.timestamp endDate

/-- collection.first(): the earliest frame, or the null element (none) when
the collection is empty. -/
def ImageCollection.first (col : ImageCollection) : Option EEImage :=
  col.head?

/-- The mcd12 collection of the script: the backend MCD12Q1 catalog narrowed
to the LC_Type1 band and date-filtered from 2001-01-01 to 2024-12-31.  Band
selection keeps every frame (each frame here is already the single LC_Type1
band); the date filter is GEE's half-open filterDate. -/
def mcd12 (catalog : ImageCollection) : ImageCollection :=
  filterDate catalog (Date.fromYMD 2001 1 1) (Date.fromYMD 2024 12 31)

/-- The year-resolution step shared by the script's analysis path:
mcd12.filter(ee.Filter.calendarRange(year, year, 'year')).first(). -/
def resolveYear (col : ImageCollection) (year : Nat) : Option EEImage :=
  (calendarRangeYear col year).first

/-- maxPixels: 1e13 in every reduceRegion and export call of the script. -/
def maxPixelsLimit : Nat := 10 ^ 13

/-- var forest = image.gte(1).and(image.lte(5)). -/
def forest (image : EEImage) : EEImage := (image.gte 1).and (image.lte 5)

/-- var savanna = image.gte(6).and(image.lte(9)). -/
def savanna (image : EEImage) : EEImage := (image.gte 6).and (image.lte 9)

/-- var cropland = image.eq(12).or(image.eq(14)). -/
def cropland (image : EEImage) : EEImage := (image.eq 12).or (image.eq 14)

/-- Result record of one analyzeLandCover call: the printed histogram and the
three printed group areas in km². -/
structure LandCoverStats where
  histogram : List (Nat × Nat)
  forestAreaKm2 : ℚ
  savannaAreaKm2 : ℚ
  cropAreaKm2 : ℚ
deriving DecidableEq, Repr

/-- function analyzeLandCover(year): resolve the year's frame, clip it to the
ROI, compute the class histogram, then each group's masked pixel sum times
0.25 km² per pixel.  Returns none when the year has no frame or a
reduceRegion call hits the maxPixels ceiling. -/
def analyzeLandCover (col : ImageCollection) (roi : Region) (year : Nat) :
    Option LandCoverStats := do
  let img0 ← resolveYear col year
  let image := img0.clip roi
  let histogram ← reduceRegionHistogram image roi 500 maxPixelsLimit
  let forestCount ← reduceRegionSum (forest image) roi 500 maxPixelsLimit
  let savannaCount ← reduceRegionSum (savanna image) roi 500 maxPixelsLimit
  let cropCount ← reduceRegionSum (cropland image) roi 500 maxPixelsLimit
  some { histogram := histogram
         forestAreaKm2 := (forestCount : ℚ) * 0.25
         savannaAreaKm2 := (savannaCount : ℚ) * 0.25
         cropAreaKm2 := (cropCount : ℚ) * 0.25 }

/-- The job name 'MCD12Q1_Maranhao_' + year used for both the description and
the file name prefix of an export task. -/
def exportName (year : Nat) : String := "MCD12Q1_Maranhao_" ++ toString year

/-- One Export.image.toDrive request as built by exportYear. -/
structure ExportTask where
  image : EEImage
  description : String
  folder : String
  fileNamePre : String
  region : Region
  scale : Nat
  crs : String
  maxPixels : Nat
  fileFormat : String
deriving DecidableEq, Repr

/-- function exportYear(year): select the year's frame by
filterDate(fromYMD(year,1,1), start.advance(1,'year')).first(), clip it to the
ROI and submit the Export.image.toDrive task.  Returns none when no frame
falls in the interval. -/
def exportYear (col : ImageCollection) (roi : Region) (year : Nat) :
    Option ExportTask := do
  let startDate := Date.fromYMD year 1 1
  let endDate := startDate.advanceYears 1
  let img0 ← (filterDate col startDate endDate).first
  some { image := img0.clip roi
         description := exportName year
         folder := "MODIS_Land_Cover_Maranhao"
         fileNamePre := exportName year
         region := roi
         scale := 500
         crs := "EPSG:4326"
         maxPixels := maxPixelsLimit
         fileFormat := "GeoTIFF" }

/-- ee.List.sequence(a, b): the integers from a to b inclusive. -/
def eeSequence (a b : Nat) : List Nat := List.range' a (b + 1 - a)

/-- The analysis loop [2001, 2005, 2010, 2015, 2020, 2024].forEach(
analyzeLandCover), generalized over the year list it iterates: one outcome
per requested year. -/
def runBatchAnalyze (col : ImageCollection) (roi : Region) (years : List Nat) :
    List (Nat × Option LandCoverStats) :=
  years.map fun y => (y, analyzeLandCover col roi y)

/-- The export loop years.evaluate(yearList.forEach(exportYear)) with
years = ee.List.sequence(2001, 2024), generalized over the year list: one
outcome per requested year. -/
def runBatchExport (col : ImageCollection) (roi : Region) (years : List Nat) :
    List (Nat × Option ExportTask) :=
  years.map fun y => (y, exportYear col roi y)

/-- The script's analysis years [2001, 2005, 2010, 2015, 2020, 2024]. -/
def keyYears : List Nat := [2001, 2005, 2010, 2015, 2020, 2024]

/-- Modelled from the spec: pixel_area_km2 = (scaleMeters/1000)², the area of
one pixel in km² at a given sampling scale in meters. -/
def pixelAreaKm2 (scale : Nat) : ℚ := ((scale : ℚ) / 1000) ^ 2

/-- The spec's Forest group {1, 2, 3, 4, 5} as a predicate on class codes,
mirroring the mask image.gte(1).and(image.lte(5)). -/
def isForestCode (c : Nat) : Bool := decide (1 ≤ c) && decide (c ≤ 5)

/-- The spec's Savanna group {6, 7, 8, 9} as a predicate on class codes,
mirroring the mask image.gte(6).and(image.lte(9)). -/
def isSavannaCode (c : Nat) : Bool := decide (6 ≤ c) && decide (c ≤ 9)

/-- The spec's Agriculture group {12, 14} as a predicate on class codes,
mirroring the mask image.eq(12).or(image.eq(14)). -/
def isCroplandCode (c : Nat) : Bool := decide (c = 12) || decide (c = 14)

/-! Helper lemmas about the embedded raster operations. -/

lemma mapCode_pixels (img : EEImage) (f : Nat → Nat) :
    (img.mapCode f).pixels = img.pixels.map fun p => ⟨p.x, p.y, f p.code⟩ := rfl

lemma mapCode_timestamp (img : EEImage) (f : Nat → Nat) :
    (img.mapCode f).timestamp = img.timestamp := rfl

lemma regionCodes_mapCode (img : EEImage) (f : Nat → Nat) (roi : Region) :
    regionCodes (img.mapCode f) roi = (regionCodes img roi).map f := by
  unfold regionCodes
  rw [mapCode_pixels, List.filter_map]
  simp [Function.comp_def, List.map_map]

lemma and_mapCode (img : EEImage) (f g : Nat → Nat) :
    (img.mapCode f).and (img.mapCode g) =
      img.mapCode fun c => if f c ≠ 0 ∧ g c ≠ 0 then 1 else 0 := by
  unfold EEImage.and
  rw [mapCode_pixels, mapCode_pixels, List.zipWith_map, List.zipWith_same]
  rfl

lemma or_mapCode (img : EEImage) (f g : Nat → Nat) :
    (img.mapCode f).or (img.mapCode g) =
      img.mapCode fun c => if f c ≠ 0 ∨ g c ≠ 0 then 1 else 0 := by
  unfold EEImage.or
  rw [mapCode_pixels, mapCode_pixels, List.zipWith_map, List.zipWith_same]
  rfl

lemma forest_mapCode (image : EEImage) :
    forest image = image.mapCode fun c => if isForestCode c then 1 else 0 := by
  unfold forest EEImage.gte EEImage.lte
  rw [and_mapCode]
  congr 1
  funext c
  by_cases h1 : 1 ≤ c <;> by_cases h2 : c ≤ 5 <;> simp [h1, h2, isForestCode]

lemma savanna_mapCode (image : EEImage) :
    savanna image = image.mapCode fun c => if isSavannaCode c then 1 else 0 := by
  unfold savanna EEImage.gte EEImage.lte
  rw [and_mapCode]
  congr 1
  funext c
  by_cases h1 : 6 ≤ c <;> by_cases h2 : c ≤ 9 <;> simp [h1, h2, isSavannaCode]

lemma cropland_mapCode (image : EEImage) :
    cropland image = image.mapCode fun c => if isCroplandCode c then 1 else 0 := by
  unfold cropland EEImage.eq
  rw [or_mapCode]
  congr 1
  funext c
  by_cases h1 : c = 12 <;> by_cases h2 : c = 14 <;> simp [h1, h2, isCroplandCode]

lemma sum_map_ite_one (l : List Nat) (p : Nat → Bool) :
    (l.map fun c => if p c then 1 else 0).sum = l.countP p := by
  induction l with
  | nil => rfl
  | cons a t ih => by_cases h : p a <;> simp [List.countP_cons, h, ih] <;> omega

lemma regionCodes_clip (img : EEImage) (roi : Region) :
    regionCodes (img.clip roi) roi = regionCodes img roi := by
  unfold regionCodes EEImage.clip
  simp [List.filter_filter]

lemma countP_three_disjoint (l : List Nat) (p q r : Nat → Bool)
    (hpq : ∀ c, (p c && q c) = false) (hpr : ∀ c, (p c && r c) = false)
    (hqr : ∀ c, (q c && r c) = false) :
    l.countP p + l.countP q + l.countP r ≤ l.length := by
  induction l with
  | nil => simp
  | cons a t ih =>
    have h1 := hpq a
    have h2 := hpr a
    have h3 := hqr a
    cases hp : p a <;> cases hq : q a <;> cases hr : r a <;>
      simp_all [List.countP_cons] <;> omega

lemma analyzeLandCover_missing (col : ImageCollection) (roi : Region) (y : Nat)
    (h : resolveYear col y = none) : analyzeLandCover col roi y = none := by
  simp [analyzeLandCover, h]

lemma analyzeLandCover_some (col : ImageCollection) (roi : Region) (y : Nat)
    (img : EEImage) (hres : resolveYear col y = some img)
    (hlen : (regionCodes img roi).length ≤ maxPixelsLimit) :
    analyzeLandCover col roi y = some
      { histogram :=
          (regionCodes img roi).dedup.map fun c => (c, (regionCodes img roi).count c)
        forestAreaKm2 := ((regionCodes img roi).countP isForestCode : ℚ) * 0.25
        savannaAreaKm2 := ((regionCodes img roi).countP isSavannaCode : ℚ) * 0.25
        cropAreaKm2 := ((regionCodes img roi).countP isCroplandCode : ℚ) * 0.25 } := by
  unfold analyzeLandCover reduceRegionHistogram reduceRegionSum
  rw [hres]
  simp only [Option.bind_eq_bind, Option.some_bind]
  simp only [forest_mapCode, savanna_mapCode, cropland_mapCode,
    regionCodes_mapCode, regionCodes_clip, List.length_map, sum_map_ite_one]
  simp [hlen]

lemma analyzeLandCover_over (col : ImageCollection) (roi : Region) (y : Nat)
    (img : EEImage) (hres : resolveYear col y = some img)
    (hlen : ¬ (regionCodes img roi).length ≤ maxPixelsLimit) :
    analyzeLandCover col roi y = none := by
  unfold analyzeLandCover reduceRegionHistogram
  rw [hres]
  simp only [Option.bind_eq_bind, Option.some_bind]
  simp [regionCodes_clip, hlen]

lemma analyzeLandCover_some_inv (col : ImageCollection) (roi : Region) (y : Nat)
    (img : EEImage) (stats : LandCoverStats)
    (hres : resolveYear col y = some img)
    (hstats : analyzeLandCover col roi y = some stats) :
    stats.forestAreaKm2 = ((regionCodes img roi).countP isForestCode : ℚ) * 0.25 ∧
    stats.savannaAreaKm2 = ((regionCodes img roi).countP isSavannaCode : ℚ) * 0.25 ∧
    stats.cropAreaKm2 = ((regionCodes img roi).countP isCroplandCode : ℚ) * 0.25 ∧
    (regionCodes img roi).length ≤ maxPixelsLimit := by
  by_cases hlen : (regionCodes img roi).length ≤ maxPixelsLimit
  · rw [analyzeLandCover_some col roi y img hres hlen] at hstats
    injection hstats with h
    subst h
    exact ⟨rfl, rfl, rfl, hlen⟩
  · rw [analyzeLandCover_over col roi y img hres hlen] at hstats
    cases hstats

lemma forest_savanna_disjoint (c : Nat) :
    (isForestCode c && isSavannaCode c) = false := by
  simp only [isForestCode, isSavannaCode, Bool.and_eq_false_iff]
  by_cases h : c ≤ 5 <;> simp [h] <;> omega

lemma forest_cropland_disjoint (c : Nat) :
    (isForestCode c && isCroplandCode c) = false := by
  simp only [isForestCode, isCroplandCode, Bool.and_eq_false_iff]
  by_cases h : c ≤ 5 <;> simp [h] <;> omega

lemma savanna_cropland_disjoint (c : Nat) :
    (isSavannaCode c && isCroplandCode c) = false := by
  simp only [isSavannaCode, isCroplandCode, Bool.and_eq_false_iff]
  by_cases h : c ≤ 9 <;> simp [h] <;> omega

/-! Concrete scenario inputs used by the witnesses below. -/

/-- A one-cell region for the batch scenarios. -/
def demoRoi : Region := [(0, 0)]

/-- A 2001 frame for the batch scenarios. -/
def frame2001 : EEImage := ⟨⟨2001, 1, 1⟩, [⟨0, 0, 2⟩]⟩

/-- A 2003 frame for the batch scenarios. -/
def frame2003 : EEImage := ⟨⟨2003, 1, 1⟩, [⟨0, 0, 9⟩]⟩

/-- A catalog with frames for 2001 and 2003 but none for 2002. -/
def demoCatalog : ImageCollection := [frame2001, frame2003]

/-- The spec's synthetic 4×4 ROI at the 500 m working scale. -/
def roi4x4 : Region :=
  [(0, 0), (0, 1), (0, 2), (0, 3),
   (1, 0), (1, 1), (1, 2), (1, 3),
   (2, 0), (2, 1), (2, 2), (2, 3),
   (3, 0), (3, 1), (3, 2), (3, 3)]

/-- The spec's synthetic 4×4 frame: class 2 (forest) occupies 6 pixels, the
other 10 pixels hold class 9. -/
def frame4x4 : EEImage :=
  ⟨⟨2020, 1, 1⟩,
   [⟨0, 0, 2⟩, ⟨0, 1, 2⟩, ⟨0, 2, 2⟩, ⟨0, 3, 9⟩,
    ⟨1, 0, 2⟩, ⟨1, 1, 2⟩, ⟨1, 2, 2⟩, ⟨1, 3, 9⟩,
    ⟨2, 0, 9⟩, ⟨2, 1, 9⟩, ⟨2, 2, 9⟩, ⟨2, 3, 9⟩,
    ⟨3, 0, 9⟩, ⟨3, 1, 9⟩, ⟨3, 2, 9⟩, ⟨3, 3, 9⟩]⟩

/-- A catalog holding only the synthetic 4×4 frame. -/
def col4x4 : ImageCollection := [frame4x4]

/-- The stats the script computes on the synthetic 4×4 scenario. -/
def stats4x4 : LandCoverStats :=
  (analyzeLandCover col4x4 roi4x4 2020).getD ⟨[], 0, 0, 0⟩

/-- The export task the script builds for 2001 on the demo catalog. -/
def demoTask2001 : ExportTask :=
  (exportYear demoCatalog demoRoi 2001).getD
    ⟨⟨⟨0, 0, 0⟩, []⟩, "", "", "", [], 0, "", 0, ""⟩

/-! Claim theorems. -/

/-- C1: resolving a requested year against the raster collection returns
either a frame whose acquisition year equals the requested year or the
explicit Missing outcome (none); when zero frames match the calendar year the
result is none, and the per-year analysis then reports the missing year as
its outcome instead of failing in a later access. -/
theorem resolveYear_found_or_missing (col : ImageCollection) (y : Nat) :
    (∀ img, resolveYear col y = some img → img.timestamp.year = y) ∧
    (resolveYear col y = none ↔ ∀ img ∈ col, img.timestamp.year ≠ y) ∧
    (∀ roi, resolveYear col y = none → analyzeLandCover col roi y = none) := by
  refine ⟨?_, ?_, fun roi h => analyzeLandCover_missing col roi y h⟩
  · intro img h
    have hmem : img ∈ calendarRangeYear col y := List.mem_of_mem_head? h
    have := (List.mem_filter.mp hmem).2
    simpa using this
  · unfold resolveYear ImageCollection.first calendarRangeYear
    rw [List.head?_eq_none_iff, List.filter_eq_nil_iff]
    simp

/-- Witness for C1 at the demo catalog: 2002 has no frame, so resolution is
Missing and the analysis records the missing year. -/
theorem resolveYear_found_or_missing_w :
    resolveYear demoCatalog 2002 = none ∧
    analyzeLandCover demoCatalog demoRoi 2002 = none := by
  have h := resolveYear_found_or_missing demoCatalog 2002
  have hnone : resolveYear demoCatalog 2002 = none := h.2.1.mpr (by decide)
  exact ⟨hnone, h.2.2 demoRoi hnone⟩

/-- C2: a batch run over a year list yields exactly one outcome per requested
year, the outcome of position i depends only on that year, and on the
scenario catalog with no 2002 frame the run over 2001..2003 completes with
2001 and 2003 succeeding and 2002 recorded as skipped. -/
theorem batch_run_never_aborts (col : ImageCollection) (roi : Region)
    (years : List Nat) (i : Nat) :
    (runBatchAnalyze col roi years).length = years.length ∧
    (runBatchExport col roi years).length = years.length ∧
    (runBatchAnalyze col roi years)[i]? =
      years[i]?.map (fun y => (y, analyzeLandCover col roi y)) ∧
    (runBatchExport col roi years)[i]? =
      years[i]?.map (fun y => (y, exportYear col roi y)) ∧
    (runBatchAnalyze demoCatalog demoRoi (eeSequence 2001 2003)).map
        (fun p => (p.1, p.2.isSome)) =
      [(2001, true), (2002, false), (2003, true)] ∧
    (runBatchExport demoCatalog demoRoi (eeSequence 2001 2003)).map
        (fun p => (p.1, p.2.isSome)) =
      [(2001, true), (2002, false), (2003, true)] := by
  refine ⟨by simp [runBatchAnalyze], by simp [runBatchExport],
    by simp [runBatchAnalyze, List.getElem?_map],
    by simp [runBatchExport, List.getElem?_map], by decide, by decide⟩

/-- C5: the program's three class groups are pairwise disjoint — no class
code is matched by two of the masks forest = gte(1).and(lte(5)),
savanna = gte(6).and(lte(9)), cropland = eq(12).or(eq(14)), whose pixelwise
meaning is exactly the code predicates isForestCode, isSavannaCode,
isCroplandCode. -/
theorem classGroups_pairwise_disjoint :
    (∀ c : Nat, (isForestCode c && isSavannaCode c) = false ∧
      (isForestCode c && isCroplandCode c) = false ∧
      (isSavannaCode c && isCroplandCode c) = false) ∧
    (∀ image : EEImage,
      forest image = image.mapCode (fun c => if isForestCode c then 1 else 0) ∧
      savanna image = image.mapCode (fun c => if isSavannaCode c then 1 else 0) ∧
      cropland image =
        image.mapCode (fun c => if isCroplandCode c then 1 else 0)) :=
  ⟨fun c => ⟨forest_savanna_disjoint c, forest_cropland_disjoint c,
      savanna_cropland_disjoint c⟩,
   fun image => ⟨forest_mapCode image, savanna_mapCode image,
      cropland_mapCode image⟩⟩

/-- C3: each group area the script computes equals the count of pixels
matched by that group's mask times pixel_area_km2(scale) at the working
scale of 500 m, where pixel_area_km2(scale) = (scale/1000)²; in particular
pixel_area_km2(500) = 0.25 and pixel_area_km2(1000) = 1. -/
theorem groupArea_count_times_pixelArea (col : ImageCollection) (roi : Region)
    (y : Nat) (img : EEImage) (stats : LandCoverStats)
    (hres : resolveYear col y = some img)
    (hstats : analyzeLandCover col roi y = some stats) :
    stats.forestAreaKm2 =
      ((regionCodes img roi).countP isForestCode : ℚ) * pixelAreaKm2 500 ∧
    stats.savannaAreaKm2 =
      ((regionCodes img roi).countP isSavannaCode : ℚ) * pixelAreaKm2 500 ∧
    stats.cropAreaKm2 =
      ((regionCodes img roi).countP isCroplandCode : ℚ) * pixelAreaKm2 500 ∧
    pixelAreaKm2 500 = 0.25 ∧ pixelAreaKm2 1000 = 1 := by
  have hp : pixelAreaKm2 500 = (0.25 : ℚ) := by norm_num [pixelAreaKm2]
  have h := analyzeLandCover_some_inv col roi y img stats hres hstats
  refine ⟨?_, ?_, ?_, hp, by norm_num [pixelAreaKm2]⟩
  · rw [hp]; exact h.1
  · rw [hp]; exact h.2.1
  · rw [hp]; exact h.2.2.1

/-- Witness for C3 on the spec's synthetic 4×4 scenario: 6 forest pixels at
500 m give 6 × 0.25 = 1.5 km². -/
theorem groupArea_count_times_pixelArea_w :
    analyzeLandCover col4x4 roi4x4 2020 = some stats4x4 ∧
    stats4x4.forestAreaKm2 = 6 * pixelAreaKm2 500 ∧
    stats4x4.forestAreaKm2 = 1.5 := by
  have hres : resolveYear col4x4 2020 = some frame4x4 := by decide
  have hstats : analyzeLandCover col4x4 roi4x4 2020 = some stats4x4 := rfl
  have hcount : (regionCodes frame4x4 roi4x4).countP isForestCode = 6 := by
    decide
  have h := groupArea_count_times_pixelArea col4x4 roi4x4 2020 frame4x4 stats4x4
    hres hstats
  refine ⟨hstats, ?_, ?_⟩
  · rw [h.1, hcount]; norm_num
  · rw [h.1, hcount]; norm_num [pixelAreaKm2]

/-- C4: every group area is non-negative and the three group areas sum to at
most the total ROI area, the pixel count inside the ROI times
pixel_area_km2(500). -/
theorem groupAreas_nonneg_sum_le_total (col : ImageCollection) (roi : Region)
    (y : Nat) (img : EEImage) (stats : LandCoverStats)
    (hres : resolveYear col y = some img)
    (hstats : analyzeLandCover col roi y = some stats) :
    0 ≤ stats.forestAreaKm2 ∧ 0 ≤ stats.savannaAreaKm2 ∧
    0 ≤ stats.cropAreaKm2 ∧
    stats.forestAreaKm2 + stats.savannaAreaKm2 + stats.cropAreaKm2 ≤
      ((regionCodes img roi).length : ℚ) * pixelAreaKm2 500 := by
  obtain ⟨hf, hs, hc, -⟩ := analyzeLandCover_some_inv col roi y img stats hres
    hstats
  have hp : pixelAreaKm2 500 = (0.25 : ℚ) := by norm_num [pixelAreaKm2]
  have hcount := countP_three_disjoint (regionCodes img roi) _ _ _
    forest_savanna_disjoint forest_cropland_disjoint savanna_cropland_disjoint
  have hcast : ((regionCodes img roi).countP isForestCode : ℚ) +
      ((regionCodes img roi).countP isSavannaCode : ℚ) +
      ((regionCodes img roi).countP isCroplandCode : ℚ) ≤
      ((regionCodes img roi).length : ℚ) := by exact_mod_cast hcount
  rw [hf, hs, hc, hp]
  refine ⟨by positivity, by positivity, by positivity, ?_⟩
  linarith

/-- Witness for C4 on the synthetic 4×4 scenario: the areas are non-negative
and sum to at most 16 × 0.25 km². -/
theorem groupAreas_nonneg_sum_le_total_w :
    0 ≤ stats4x4.forestAreaKm2 ∧
    stats4x4.forestAreaKm2 + stats4x4.savannaAreaKm2 + stats4x4.cropAreaKm2 ≤
      (16 : ℚ) * pixelAreaKm2 500 := by
  have hres : resolveYear col4x4 2020 = some frame4x4 := by decide
  have hstats : analyzeLandCover col4x4 roi4x4 2020 = some stats4x4 := rfl
  have hlen : ((regionCodes frame4x4 roi4x4).length : ℚ) = 16 := by decide
  have h := groupAreas_nonneg_sum_le_total col4x4 roi4x4 2020 frame4x4 stats4x4
    hres hstats
  exact ⟨h.1, by have := h.2.2.2; rw [hlen] at this; exact this⟩

/-- C6: a pixel whose class code is matched by no group (such as codes 10,
11, 13, 15, 16, 17) contributes zero to every group's masked pixel sum, and
a frame all of whose codes are unmatched yields zero for all three groups —
there is no catch-all bucket collecting unmatched codes. -/
theorem ungrouped_codes_contribute_zero (roi : Region) (ts : Date) (p : Pixel)
    (rest : List Pixel)
    (hf : isForestCode p.code = false) (hs : isSavannaCode p.code = false)
    (hc : isCroplandCode p.code = false) :
    ((regionCodes (forest ⟨ts, p :: rest⟩) roi).sum
        = (regionCodes (forest ⟨ts, rest⟩) roi).sum ∧
     (regionCodes (savanna ⟨ts, p :: rest⟩) roi).sum
        = (regionCodes (savanna ⟨ts, rest⟩) roi).sum ∧
     (regionCodes (cropland ⟨ts, p :: rest⟩) roi).sum
        = (regionCodes (cropland ⟨ts, rest⟩) roi).sum) ∧
    (∀ img : EEImage,
      (∀ q ∈ img.pixels, isForestCode q.code = false ∧
        isSavannaCode q.code = false ∧ isCroplandCode q.code = false) →
      (regionCodes (forest img) roi).sum = 0 ∧
      (regionCodes (savanna img) roi).sum = 0 ∧
      (regionCodes (cropland img) roi).sum = 0) := by
  constructor
  · simp only [forest_mapCode, savanna_mapCode, cropland_mapCode,
      regionCodes_mapCode, sum_map_ite_one]
    unfold regionCodes
    by_cases hmem : (p.x, p.y) ∈ roi <;>
      simp [hmem, List.filter_cons, List.countP_cons, hf, hs, hc,
        Function.comp]
  · intro img hall
    have hcode : ∀ a ∈ regionCodes img roi, ∃ q ∈ img.pixels, q.code = a := by
      intro a ha
      obtain ⟨q, hq, rfl⟩ := List.mem_map.mp ha
      exact ⟨q, (List.mem_filter.mp hq).1, rfl⟩
    simp only [forest_mapCode, savanna_mapCode, cropland_mapCode,
      regionCodes_mapCode, sum_map_ite_one]
    refine ⟨?_, ?_, ?_⟩ <;> refine List.countP_eq_zero.mpr ?_ <;>
      intro a ha <;> obtain ⟨q, hqmem, rfl⟩ := hcode a ha
    · simp [(hall q hqmem).1]
    · simp [(hall q hqmem).2.1]
    · simp [(hall q hqmem).2.2]

/-- Witness for C6: a pixel with the ungrouped code 10 adds nothing to any
group's sum. -/
theorem ungrouped_codes_contribute_zero_w :
    (regionCodes (forest ⟨⟨2020, 1, 1⟩, [⟨0, 0, 10⟩]⟩) [(0, 0)]).sum
        = (regionCodes (forest ⟨⟨2020, 1, 1⟩, []⟩) [(0, 0)]).sum ∧
    (regionCodes (forest ⟨⟨2020, 1, 1⟩, [⟨0, 0, 10⟩]⟩) [(0, 0)]).sum = 0 := by
  have h := ungrouped_codes_contribute_zero [(0, 0)] ⟨2020, 1, 1⟩ ⟨0, 0, 10⟩ []
    (by decide) (by decide) (by decide)
  refine ⟨h.1.1, ?_⟩
  have h0 := (h.2 ⟨⟨2020, 1, 1⟩, [⟨0, 0, 10⟩]⟩ (by decide)).1
  exact h0

/-- C7: the histogram and grouped-area computations are deterministic — two
evaluations on identical (frame, region, scale) inputs, and two analysis
runs on identical (catalog, region, year) inputs, return identical
results. -/
theorem analytics_deterministic (f1 f2 : EEImage) (r1 r2 : Region)
    (s1 s2 m : Nat) (col1 col2 : ImageCollection) (y1 y2 : Nat)
    (hf : f1 = f2) (hr : r1 = r2) (hs : s1 = s2) (hcol : col1 = col2)
    (hy : y1 = y2) :
    reduceRegionHistogram f1 r1 s1 m = reduceRegionHistogram f2 r2 s2 m ∧
    reduceRegionSum f1 r1 s1 m = reduceRegionSum f2 r2 s2 m ∧
    analyzeLandCover col1 r1 y1 = analyzeLandCover col2 r2 y2 := by
  subst hf
  subst hr
  subst hs
  subst hcol
  subst hy
  exact ⟨rfl, rfl, rfl⟩

/-- Witness for C7 at the synthetic 4×4 inputs. -/
theorem analytics_deterministic_w :
    reduceRegionHistogram frame4x4 roi4x4 500 maxPixelsLimit =
      reduceRegionHistogram frame4x4 roi4x4 500 maxPixelsLimit ∧
    reduceRegionSum frame4x4 roi4x4 500 maxPixelsLimit =
      reduceRegionSum frame4x4 roi4x4 500 maxPixelsLimit ∧
    analyzeLandCover col4x4 roi4x4 2020 = analyzeLandCover col4x4 roi4x4 2020 :=
  analytics_deterministic frame4x4 frame4x4 roi4x4 roi4x4 500 500
    maxPixelsLimit col4x4 col4x4 2020 2020 rfl rfl rfl rfl rfl

/-- C8: every export task the script submits carries a description and file
name prefix equal to 'MCD12Q1_Maranhao_' followed by the year, so the job
name depends only on the year; over the exported range 2001..2024 the names
are pairwise distinct. -/
theorem exportJob_names_deterministic_distinct :
    (∀ col roi y task, exportYear col roi y = some task →
        task.description = exportName y ∧ task.fileNamePre = exportName y) ∧
    (∀ y : Nat, exportName y = "MCD12Q1_Maranhao_" ++ toString y) ∧
    ((eeSequence 2001 2024).map exportName).Nodup := by
  refine ⟨?_, fun y => rfl, by decide⟩
  intro col roi y task h
  unfold exportYear at h
  simp only [Option.bind_eq_bind] at h
  cases hfirst : (filterDate col (Date.fromYMD y 1 1)
      ((Date.fromYMD y 1 1).advanceYears 1)).first with
  | none =>
    rw [hfirst] at h
    simp at h
  | some img0 =>
    rw [hfirst, Option.some_bind] at h
    injection h with h
    subst h
    exact ⟨rfl, rfl⟩

/-- Witness for C8 on the demo catalog: the 2001 task is named
MCD12Q1_Maranhao_2001 in both fields. -/
theorem exportJob_names_deterministic_distinct_w :
    demoTask2001.description = exportName 2001 ∧
    demoTask2001.fileNamePre = exportName 2001 :=
  exportJob_names_deterministic_distinct.1 demoCatalog demoRoi 2001
    demoTask2001 rfl

/-- A frame acquired exactly on the filter's end date 2024-12-31. -/
def frameDec31 : EEImage := ⟨⟨2024, 12, 31⟩, []⟩

/-- A frame acquired on 2024-01-01, the acquisition date of the annual
MCD12Q1 composites. -/
def frameJan2024 : EEImage := ⟨⟨2024, 1, 1⟩, []⟩

/-- C9 counterexample: contrary to the claim, a frame acquired exactly on the
end date 2024-12-31 is NOT in the date-filtered collection, because GEE's
filterDate excludes the end date. -/
theorem filterDate_end_date_excluded_cex :
    frameDec31 ∉ mcd12 [frameDec31] := by decide

/-- C9 (amended): filterDate restricts the collection to the half-open
period [start, end) — a frame is kept iff it is in the catalog, acquired on
or after 2001-01-01, and strictly before 2024-12-31. -/
theorem filterDate_halfopen (catalog : ImageCollection) (img : EEImage) :
    img ∈ mcd12 catalog ↔
      img ∈ catalog ∧
        Date.le (Date.fromYMD 2001 1 1) img.timestamp = true ∧
        Date.lt img.timestamp (Date.fromYMD 2024 12 31) = true := by
  simp [mcd12, filterDate, List.mem_filter, Bool.and_eq_true, and_assoc]

/-- Witness for C9's amended statement: the 2024-01-01 frame (strictly before
the end date) is kept by the filter. -/
theorem filterDate_halfopen_w : frameJan2024 ∈ mcd12 [frameJan2024] :=
  (filterDate_halfopen [frameJan2024] frameJan2024).mpr
    ⟨by decide, by decide, by decide⟩

/-- C10: the two year-selection methods of the script agree — for frames
carrying valid timestamps (month and day at least 1), filtering by
calendarRange(y, y, 'year') and taking the first frame selects the same
frame as filtering by the date interval [y-01-01, (y+1)-01-01) and taking
the first frame. -/
theorem year_selection_paths_equivalent (col : ImageCollection) (y : Nat)
    (hvalid : ∀ img ∈ col,
      1 ≤ img.timestamp.month ∧ 1 ≤ img.timestamp.day) :
    (calendarRangeYear col y).first =
      (filterDate col (Date.fromYMD y 1 1)
        ((Date.fromYMD y 1 1).advanceYears 1)).first := by
  unfold calendarRangeYear filterDate ImageCollection.first
  congr 1
  apply List.filter_congr
  intro img hmem
  obtain ⟨hm, hd⟩ := hvalid img hmem
  simp only [Date.le, Date.lt, Date.fromYMD, Date.advanceYears]
  apply Bool.coe_iff_coe.mp
  simp only [Bool.or_eq_true, Bool.and_eq_true, beq_iff_eq, Nat.blt_eq,
    Nat.ble_eq]
  omega

/-- Witness for C10 at the demo catalog and year 2001: both paths select the
2001 frame. -/
theorem year_selection_paths_equivalent_w :
    (calendarRangeYear demoCatalog 2001).first =
      (filterDate demoCatalog (Date.fromYMD 2001 1 1)
        ((Date.fromYMD 2001 1 1).advanceYears 1)).first :=
  year_selection_paths_equivalent demoCatalog 2001 (by decide)
